import Mathlib

/-!
Shallow embedding of the partnership dashboard front end: the aggregation
pipeline of the Dashboard screen (status derivation, time-window filter,
monthly time series, country heatmap) and the edit-partnership form
(deep diff, submission), together with theorems checking the written
specification of the repository against this embedding.

Conventions of the embedding:
* JS strings are Lean `String`; case mapping and trimming are modelled on
  the ASCII subset the source actually feeds them.
* A JS `Date` is modelled by its civil components (`JsDate`); its
  millisecond timestamp is computed with the standard civil-from-days
  algorithm, which also reproduces the normalisation JS applies to
  out-of-range components (as produced by `setDate` / `setMonth` /
  `setFullYear`).
* Optional / missing JSON fields are `Option`; a JS falsy check on a
  string field treats the empty string like a missing one.
* A thrown `TypeError` is modelled by `Except.error ()`.
-/

namespace Frontend

/-- ASCII lower-casing of one character, as `String.prototype.toLowerCase`
acts on the ASCII range. -/
def jsCharToLower (c : Char) : Char :=
  if 65 ≤ c.toNat ∧ c.toNat ≤ 90 then Char.ofNat (c.toNat + 32) else c

/-- ASCII upper-casing of one character, as `String.prototype.toUpperCase`
acts on the ASCII range. -/
def jsCharToUpper (c : Char) : Char :=
  if 97 ≤ c.toNat ∧ c.toNat ≤ 122 then Char.ofNat (c.toNat - 32) else c

/-- Model of `s.toLowerCase()`. -/
def jsToLower (s : String) : String := String.mk (s.data.map jsCharToLower)

/-- Whitespace recognised by the model of `String.prototype.trim`. -/
def jsWs (c : Char) : Bool := c == ' ' || c == '\t' || c == '\n' || c == '\r'

/-- Trimming on the character list: drop leading and trailing whitespace. -/
def jsTrimList (l : List Char) : List Char :=
  ((l.dropWhile jsWs).reverse.dropWhile jsWs).reverse

/-- Model of `s.trim()`. -/
def jsTrim (s : String) : String := String.mk (jsTrimList s.data)

/-- Model of `name.charAt(0).toUpperCase() + name.slice(1)`. -/
def jsCapitalize (s : String) : String :=
  match s.data with
  | [] => ""
  | c :: cs => String.mk (jsCharToUpper c :: cs)

/-- JS falsiness of a string value: the empty string is falsy. -/
def jsFalsyStr (s : String) : Bool := s.data.isEmpty

/-- JS truthiness of an optional string field: absent and empty are falsy. -/
def truthyStr : Option String → Bool
  | none => false
  | some s => !(jsFalsyStr s)

/-! ## Dates

`daysFromCivil` is the standard days-from-civil algorithm (proleptic
Gregorian calendar, day 0 = 1970-01-01); fed an arbitrary month or day it
performs exactly the rollover normalisation JS `Date.UTC` applies. -/

/-- Day number of the civil date `(y, m, d)` with 1-based month. -/
def daysFromCivil (y m d : Int) : Int :=
  let y2 := if m ≤ 2 then y - 1 else y
  let era := y2.fdiv 400
  let yoe := y2 - era * 400
  let mp := if m > 2 then m - 3 else m + 9
  let doy := (153 * mp + 2).fdiv 5 + d - 1
  let doe := yoe * 365 + yoe.fdiv 4 - yoe.fdiv 100 + doy
  era * 146097 + doe - 719468

/-- Day number for JS-style components: 0-based month of any size, day of
any size (both roll over, as in `Date.UTC`). -/
def jsUTCdays (y m d : Int) : Int :=
  daysFromCivil (y + m.fdiv 12) (m.emod 12 + 1) d

def msPerDay : Int := 86400000

/-- A JS `Date`, by its components as returned by `getFullYear`,
`getMonth` (0-based), `getDate` (1-based) and the milliseconds past
midnight. Out-of-range components are allowed and normalise through
`toMs`, exactly as the JS setters do. -/
structure JsDate where
  year : Int
  month : Int
  day : Int
  msOfDay : Int
deriving DecidableEq, Repr

/-- Millisecond timestamp of a `JsDate` (what `getTime` returns and what
`Date` comparison and subtraction use). -/
def JsDate.toMs (t : JsDate) : Int :=
  jsUTCdays t.year t.month t.day * msPerDay + t.msOfDay

/-! ## Partnership records

Only the fields the dashboard pipeline reads. `college` flattens the
optional chain `p.aauContact?.interestedCollegeOrDepartment`; `country`
flattens `p.partnerInstitution?.country`. `expirationDate` is kept as a
timestamp because the source only ever subtracts it; `createdAt` keeps
its civil components because `processLineData` reads them back. `none`
stands for an absent (or empty-string, hence falsy) field. -/
structure Partnership where
  status : Option String
  expirationDate : Option Int
  createdAt : Option JsDate
  college : Option String
  country : Option String
deriving DecidableEq, Repr

/-- The fixed college list of the Dashboard component. -/
def colleges : List String :=
  ["All Colleges",
   "Central",
   "College of Business and Economics",
   "College of Social Science, Arts and Humanities",
   "College of Veterinary Medicine and Agriculture",
   "School of Law",
   "College of Technology and Built Environment",
   "College of Education and Language Studies",
   "College of Health Science"]

/-- The eight real colleges: `colleges` without the sentinel. -/
def departmentColleges : List String := colleges.drop 1

/-! ## Status derivation

Transcribed twice because the source writes the same block twice,
in `processChartData` (part_001 lines 133-148) and in `processLineData`
(lines 216-230). `daysUntilExpiration <= 30` is
`(e - now) / 86400000 <= 30` in JS; over the exact arithmetic of the
model this is `e - now <= 30 * 86400000` (the float division is exact
enough at these magnitudes not to move the comparison). -/

/-- Status derivation of `processChartData`. -/
def deriveStatusChart (status : Option String) (expirationMs : Option Int)
    (nowMs : Int) : String :=
  let derived := if truthyStr status then jsToLower (status.getD "") else "pending"
  if expirationMs.isSome && status == some "Active" then
    if expirationMs.getD 0 - nowMs ≤ 30 * msPerDay then "expiringSoon" else "active"
  else if derived == "rejected" then "expired"
  else if derived == "pending" then "prospect"
  else derived

/-- Status derivation of `processLineData`. -/
def deriveStatusLine (status : Option String) (expirationMs : Option Int)
    (nowMs : Int) : String :=
  let derived := if truthyStr status then jsToLower (status.getD "") else "pending"
  if expirationMs.isSome && status == some "Active" then
    if expirationMs.getD 0 - nowMs ≤ 30 * msPerDay then "expiringSoon" else "active"
  else if derived == "rejected" then "expired"
  else if derived == "pending" then "prospect"
  else derived

/-! ## Time-window start date

`processChartData` (lines 117-127) and `processHeatmapData` (lines
297-307) contain the same block:

    const now = new Date();
    let startDate;
    if (timeFilter === "Weekly")       startDate = new Date(now.setDate(now.getDate() - 7));
    else if (timeFilter === "Monthly") startDate = new Date(now.setMonth(now.getMonth() - 1));
    else if (timeFilter === "Yearly")  startDate = new Date(now.setFullYear(now.getFullYear() - 1));
    else                               startDate = new Date(0);

The setters MUTATE `now` and return the new timestamp, so after this
block `now` itself has been moved back by the filter span (except for
the final branch). The function returns
(startDate timestamp, timestamp of now as the rest of the code sees it). -/
def startDateAndMutatedNow (timeFilter : String) (now : JsDate) : Int × Int :=
  if timeFilter == "Weekly" then
    let t := JsDate.toMs { now with day := now.day - 7 }
    (t, t)
  else if timeFilter == "Monthly" then
    let t := JsDate.toMs { now with month := now.month - 1 }
    (t, t)
  else if timeFilter == "Yearly" then
    let t := JsDate.toMs { now with year := now.year - 1 }
    (t, t)
  else
    (0, JsDate.toMs now)

/-! ## processChartData (part_001 lines 109-182)

The time-window filter and the per-record derivation. `chartTotal` is
the `totalData` reduce: the number of processed records falling in the
given bucket. -/

/-- The `filteredPartnerships.map` stage of `processChartData`: each
record surviving the time filter, paired with its derived status. -/
def chartProcessed (timeFilter : String) (now : JsDate)
    (ps : List Partnership) : List (Partnership × String) :=
  let sn := startDateAndMutatedNow timeFilter now
  let filtered := ps.filter (fun p =>
    match p.createdAt with
    | some c => decide (sn.1 ≤ c.toMs)
    | none => false)
  filtered.map (fun p => (p, deriveStatusChart p.status p.expirationDate sn.2))

/-- The `totalData` counter of `processChartData` for one bucket name. -/
def chartTotal (timeFilter : String) (now : JsDate) (ps : List Partnership)
    (bucket : String) : Nat :=
  (((chartProcessed timeFilter now ps).map Prod.snd).filter
    (fun s => s == bucket)).length

/-! ## processLineData (part_001 lines 184-250)

`lineDataByCollege` is a JS object keyed by college name; it is modelled
as a partial map `String → Option SeriesCounts`. Each college holds one
12-slot counter list per derived status. Reading a key that is absent
(`lineDataByCollege[college]` for an unlisted college) or a status field
that does not exist (`...[derivedStatus]` for a fallback bucket name)
yields `undefined`, and the subsequent indexing throws a `TypeError`,
modelled by `Except.error ()`. -/

structure SeriesCounts where
  active : List Nat
  expired : List Nat
  expiringSoon : List Nat
  prospect : List Nat
deriving DecidableEq, Repr

def zeroSeries : SeriesCounts :=
  ⟨List.replicate 12 0, List.replicate 12 0, List.replicate 12 0, List.replicate 12 0⟩

/-- Read the per-status list of a `SeriesCounts`; `none` models the
`undefined` a JS property read yields for any other status string. -/
def getSeries (sc : SeriesCounts) (status : String) : Option (List Nat) :=
  if status == "active" then some sc.active
  else if status == "expired" then some sc.expired
  else if status == "expiringSoon" then some sc.expiringSoon
  else if status == "prospect" then some sc.prospect
  else none

def setSeries (sc : SeriesCounts) (status : String) (l : List Nat) : SeriesCounts :=
  if status == "active" then { sc with active := l }
  else if status == "expired" then { sc with expired := l }
  else if status == "expiringSoon" then { sc with expiringSoon := l }
  else if status == "prospect" then { sc with prospect := l }
  else sc

abbrev LineTable := String → Option SeriesCounts

/-- The seed of the `colleges.reduce` building `lineDataByCollege`:
only the sentinel key is present. -/
def emptyLineTable : LineTable :=
  fun c => if c == "All Colleges" then some zeroSeries else none

/-- `lineDataByCollege` after the reduce over `colleges`: every college
except the skipped sentinel is added with four zeroed 12-slot lists. -/
def initLineTable : LineTable :=
  colleges.foldl
    (fun acc college =>
      if college == "All Colleges" then acc
      else fun c => if c == college then some zeroSeries else acc c)
    emptyLineTable

/-- `(createdDate.getFullYear() - now.getFullYear()) * 12 +
createdDate.getMonth() - (now.getMonth() - 11)`. -/
def monthIndexOf (now created : JsDate) : Int :=
  (created.year - now.year) * 12 + created.month - (now.month - 11)

/-- `lineDataByCollege[college][status][i]++`: fails (TypeError) when the
college key or the status property is absent. -/
def bumpTable (t : LineTable) (college status : String) (i : Nat) :
    Except Unit LineTable :=
  match t college with
  | none => .error ()
  | some sc =>
    match getSeries sc status with
    | none => .error ()
    | some arr =>
      .ok (fun c =>
        if c == college then some (setSeries sc status (arr.set i (arr.getD i 0 + 1)))
        else t c)

/-- One iteration of the `partnerships.forEach` of `processLineData`. -/
def lineStep (collegeFilter : String) (now : JsDate)
    (acc : Except Unit LineTable) (p : Partnership) : Except Unit LineTable :=
  match acc with
  | .error e => .error e
  | .ok t =>
    match p.createdAt with
    | none => .ok t
    | some created =>
      if !truthyStr p.college then .ok t
      else
        let ds := deriveStatusLine p.status p.expirationDate now.toMs
        let mi := monthIndexOf now created
        if 0 ≤ mi ∧ mi < 12 then
          if collegeFilter == "All Colleges" || p.college == some collegeFilter then
            (bumpTable t (p.college.getD "") ds mi.toNat).bind
              (fun t1 => bumpTable t1 "All Colleges" ds mi.toNat)
          else .ok t
        else .ok t

/-- `processLineData`, producing `lineDataByCollege` (the month labels
are presentation only and are not modelled). -/
def processLineData (collegeFilter : String) (now : JsDate)
    (ps : List Partnership) : Except Unit LineTable :=
  ps.foldl (lineStep collegeFilter now) (.ok initLineTable)

/-- Read one counter out of a `processLineData` result (0 when the run
threw or the key is absent). -/
def lineCountE (r : Except Unit LineTable) (college status : String)
    (i : Nat) : Nat :=
  match r with
  | .error _ => 0
  | .ok t =>
    match t college with
    | none => 0
    | some sc => ((getSeries sc status).getD []).getD i 0

/-! ## processHeatmapData (part_001 lines 292-354) -/

/-- The fixed `countryMap` alias table, keyed by the trimmed lower-cased
name. -/
def countryMap (s : String) : Option String :=
  if s == "united states" then some "United States"
  else if s == "usa" then some "United States"
  else if s == "united states of america" then some "United States"
  else if s == "united kingdom" then some "United Kingdom"
  else if s == "uk" then some "United Kingdom"
  else if s == "great britain" then some "United Kingdom"
  else if s == "south korea" then some "South Korea"
  else if s == "korea, republic of" then some "South Korea"
  else if s == "russia" then some "Russian Federation"
  else if s == "china" then some "China"
  else if s == "taiwan" then some "Taiwan"
  else if s == "ethiopia" then some "Ethiopia"
  else none

/-- `normalizeCountryName` (part_001 lines 317-338). -/
def normalizeCountryName (name : Option String) : String :=
  match name with
  | none => "Unknown"
  | some s =>
    if jsFalsyStr s then "Unknown"
    else
      match countryMap (jsToLower (jsTrim s)) with
      | some mapped => jsCapitalize mapped
      | none => jsCapitalize s

/-- `x || "Unknown"` applied to the normalizer output (dead in practice,
kept for fidelity). -/
def jsOrUnknown (s : String) : String := if jsFalsyStr s then "Unknown" else s

/-- The `filteredPartnerships` of `processHeatmapData`: requires a truthy
`createdAt` inside the time window AND the college filter to match. -/
def heatmapFiltered (timeFilter collegeFilter : String) (now : JsDate)
    (ps : List Partnership) : List Partnership :=
  let startMs := (startDateAndMutatedNow timeFilter now).1
  ps.filter (fun p =>
    (match p.createdAt with
     | some c => decide (startMs ≤ c.toMs)
     | none => false)
    && (collegeFilter == "All Colleges" || p.college == some collegeFilter))

/-- The `countryCounts` reduce, read back at one country name. -/
def heatmapCountryCount (timeFilter collegeFilter : String) (now : JsDate)
    (ps : List Partnership) (country : String) : Nat :=
  (((heatmapFiltered timeFilter collegeFilter now ps).map
      (fun p => jsOrUnknown (normalizeCountryName p.country))).filter
    (fun c => c == country)).length

/-! ## Edit-partnership form (src/pages/edit-partnership.jsx)

The form state has a fixed shape (the `useState` initialiser, lines
24-55); `getChangedFields` deep-diffs it against the originally loaded
snapshot. Nested sections are one level deep and all leaves are strings,
so the recursion of `compareObjects` is unrolled over that shape. -/

structure InstInfo where
  name : String
  website : String
  address : String
  country : String
deriving DecidableEq, Repr

structure ContactInfo where
  name : String
  email : String
  phone : String
  title : String
  address : String
deriving DecidableEq, Repr

structure FormData where
  name : String
  type : String
  signedDate : String
  endDate : String
  region : String
  country : String
  college : String
  status : String
  description : String
  partnerInstitution : InstInfo
  aauContact : ContactInfo
  partnerContactPerson : ContactInfo
  potentialStartDate : String
deriving DecidableEq, Repr

/-- The `useState` initialiser of the form: every leaf is `""`. -/
def emptyFormData : FormData :=
  ⟨"", "", "", "", "", "", "", "", "",
   ⟨"", "", "", ""⟩, ⟨"", "", "", "", ""⟩, ⟨"", "", "", "", ""⟩, ""⟩

/-- The `changes` object built by `compareObjects`: a key is present
(`some`) exactly when the corresponding field differed. -/
structure InstChanges where
  name : Option String
  website : Option String
  address : Option String
  country : Option String
deriving DecidableEq, Repr

structure ContactChanges where
  name : Option String
  email : Option String
  phone : Option String
  title : Option String
  address : Option String
deriving DecidableEq, Repr

structure FormChanges where
  name : Option String
  type : Option String
  signedDate : Option String
  endDate : Option String
  region : Option String
  country : Option String
  college : Option String
  status : Option String
  description : Option String
  partnerInstitution : Option InstChanges
  aauContact : Option ContactChanges
  partnerContactPerson : Option ContactChanges
  potentialStartDate : Option String
deriving DecidableEq, Repr

/-- The `changes` object with no keys. -/
def emptyFormChanges : FormChanges :=
  ⟨none, none, none, none, none, none, none, none, none, none, none, none, none⟩

/-- One leaf comparison of `compareObjects`: record the new value when it
differs. -/
def diffStr (a b : String) : Option String := if a == b then none else some a

/-- Section diff: the section key is created only when at least one field
inside it differs. -/
def diffInst (a b : InstInfo) : Option InstChanges :=
  let d : InstChanges :=
    ⟨diffStr a.name b.name, diffStr a.website b.website,
     diffStr a.address b.address, diffStr a.country b.country⟩
  if d = (⟨none, none, none, none⟩ : InstChanges) then none else some d

def diffContact (a b : ContactInfo) : Option ContactChanges :=
  let d : ContactChanges :=
    ⟨diffStr a.name b.name, diffStr a.email b.email, diffStr a.phone b.phone,
     diffStr a.title b.title, diffStr a.address b.address⟩
  if d = (⟨none, none, none, none, none⟩ : ContactChanges) then none else some d

/-- `getChangedFields` (lines 131-155): `compareObjects(formData,
originalData)`. When `originalData` is `null` (the initial load failed),
the very first leaf comparison reads a property of `null` and throws a
`TypeError`, modelled by `Except.error ()`. -/
def getChangedFields (formData : FormData) (originalData : Option FormData) :
    Except Unit FormChanges :=
  match originalData with
  | none => .error ()
  | some o =>
    .ok
      { name := diffStr formData.name o.name
        type := diffStr formData.type o.type
        signedDate := diffStr formData.signedDate o.signedDate
        endDate := diffStr formData.endDate o.endDate
        region := diffStr formData.region o.region
        country := diffStr formData.country o.country
        college := diffStr formData.college o.college
        status := diffStr formData.status o.status
        description := diffStr formData.description o.description
        partnerInstitution := diffInst formData.partnerInstitution o.partnerInstitution
        aauContact := diffContact formData.aauContact o.aauContact
        partnerContactPerson := diffContact formData.partnerContactPerson o.partnerContactPerson
        potentialStartDate := diffStr formData.potentialStartDate o.potentialStartDate }

/-- `Object.keys(changedFields).length === 0`: no key is present. -/
def FormChanges.isEmpty (c : FormChanges) : Bool :=
  decide (c = emptyFormChanges)

/-- The component state handleSubmit can touch (`loading` belongs to the
initial fetch but is carried along to record that submission leaves it
alone). -/
structure EditPageState where
  formData : FormData
  originalData : Option FormData
  loading : Bool
  submitting : Bool
  error : Option String
deriving DecidableEq, Repr

/-- Initial `useState` values of the component: `loading` true,
`submitting` false, `error` and `originalData` null. -/
def initialEditState : EditPageState :=
  ⟨emptyFormData, none, true, false, none⟩

/-- Observable side effects of the edit screen. The error messages the
model stores for `err.message` are placeholders for whatever message the
thrown value carries. -/
inductive EditEffect
  | toastInfo (msg : String)
  | toastSuccess (msg : String)
  | toastError (msg : String)
  | putPartnership (payload : FormChanges)
  | navigate (path : String)
deriving DecidableEq, Repr

/-- `handleSubmit` (lines 157-181): sets `submitting`, clears `error`,
diffs, short-circuits on an empty diff, otherwise issues the PUT whose
outcome is `netOk`; every path ends with `submitting` false. -/
def handleSubmit (st : EditPageState) (netOk : Bool) :
    EditPageState × List EditEffect :=
  let st1 : EditPageState := { st with submitting := true, error := none }
  match getChangedFields st1.formData st1.originalData with
  | .error _ =>
    ({ st1 with error := some "TypeError", submitting := false },
     [.toastError "Failed to update partnership"])
  | .ok c =>
    if c.isEmpty then
      ({ st1 with submitting := false }, [.toastInfo "No changes to save"])
    else if netOk then
      ({ st1 with submitting := false },
       [.putPartnership c, .toastSuccess "Partnership updated successfully",
        .navigate "/partnership"])
    else
      ({ st1 with error := some "NetworkError", submitting := false },
       [.putPartnership c, .toastError "Failed to update partnership"])

/-- `fetchPartnership` (lines 57-110): on success both `formData` and
`originalData` become the formatted record; on failure they are left
alone (so `originalData` stays `null` on a failed initial load) and an
error is stored and toasted; `loading` ends false either way. -/
def fetchPartnership (st : EditPageState) (result : Except Unit FormData) :
    EditPageState × List EditEffect :=
  match result with
  | .ok d =>
    ({ st with formData := d, originalData := some d, loading := false }, [])
  | .error _ =>
    ({ st with error := some "load failed", loading := false },
     [.toastError "Failed to load partnership details"])

/-! ## Dashboard record fetcher (part_001 lines 81-107) -/

structure DashState where
  partnerships : List Partnership
  loading : Bool
deriving DecidableEq, Repr

/-- Outcome of `getPartnerships`: a resolved response whose
`data.partnerships` may or may not be an array, or a rejection carrying
an optional server message. -/
inductive FetchResult
  | ok (body : Option (List Partnership))
  | err (msg : Option String)
deriving DecidableEq, Repr

inductive DashEffect
  | toastError (msg : String)
deriving DecidableEq, Repr

/-- `fetchPartnerships`: the state after the in-flight fetch (begun with
`setLoading(true)`) settles with `r`. -/
def fetchPartnerships (r : FetchResult) : DashState × List DashEffect :=
  match r with
  | .ok body => (⟨body.getD [], false⟩, [])
  | .err m =>
    (⟨[], false⟩, [.toastError (m.getD "Failed to fetch partnerships")])

/-! ## Spec-side definitions and helper lemmas -/

/-- The derivation rule exactly as claim C1 words it (the spec-side
definition for the refinement check, written from the claim, not from
the source). A missing status is one that is absent or empty (falsy),
matching the JS truthiness test the source applies to the field. -/
def claimStatusRule (status : Option String) (expirationMs : Option Int)
    (nowMs : Int) : String :=
  if expirationMs.isSome && status == some "Active" then
    if expirationMs.getD 0 - nowMs ≤ 30 * msPerDay then "expiringSoon" else "active"
  else if jsToLower (status.getD "") == "rejected" then "expired"
  else if jsToLower (status.getD "") == "pending" || !truthyStr status then "prospect"
  else jsToLower (status.getD "")

theorem deriveStatusLine_eq_chart :
    deriveStatusLine = deriveStatusChart := rfl

theorem deriveStatusChart_eq_claim (status : Option String) (e : Option Int)
    (n : Int) : deriveStatusChart status e n = claimStatusRule status e n := by
  cases status with
  | none =>
    simp only [deriveStatusChart, claimStatusRule, truthyStr, Bool.false_eq_true,
      if_false, Option.getD_none]
    have h1 : ((none : Option String) == some "Active") = false := rfl
    simp only [h1, Bool.and_false, Bool.false_eq_true, if_false, Bool.not_false,
      Bool.or_true]
    decide
  | some s =>
    by_cases hf : jsFalsyStr s = true
    · have hs : s = "" := by
        cases s with
        | mk l =>
          cases l with
          | nil => rfl
          | cons c cs => simp [jsFalsyStr] at hf
      subst hs
      simp only [deriveStatusChart, claimStatusRule, truthyStr]
      have h1 : ((some "" : Option String) == some "Active") = false := by decide
      simp only [h1, Bool.and_false, Bool.false_eq_true, if_false]
      decide
    · have ht : truthyStr (some s) = true := by
        simp [truthyStr, hf]
      simp only [deriveStatusChart, claimStatusRule, ht, if_true, Option.getD_some,
        Bool.not_true, Bool.or_false]

/-! ## Claim theorems -/

/-- C1: the status derivation used by `processChartData` and by
`processLineData` coincides, for every record and clock value, with
the precedence rule the claim states: present expiration with the exact
status "Active" decides expiringSoon/active by the 30-day cutoff; else a
lowercased status of "rejected" gives "expired"; else "pending" or a
missing status gives "prospect"; else the lowercased status itself is
the bucket. -/
theorem derivedStatus_precedence (status : Option String) (e : Option Int)
    (n : Int) :
    deriveStatusChart status e n = claimStatusRule status e n ∧
    deriveStatusLine status e n = claimStatusRule status e n := by
  refine ⟨deriveStatusChart_eq_claim status e n, ?_⟩
  rw [deriveStatusLine_eq_chart]
  exact deriveStatusChart_eq_claim status e n

/-- The clock reading used by the concrete counterexamples: 2026-10-11,
midnight. -/
def clockOct11 : JsDate := ⟨2026, 9, 11, 0⟩

/-- An Active record created now and expiring 10 days from now. -/
def activePlus10 : Partnership :=
  ⟨some "Active", some (clockOct11.toMs + 10 * msPerDay), some clockOct11,
   some "Central", none⟩

/-- C2 (divergence witness): under the "Monthly" time filter the
`startDate` computation mutates `now` back by one month, so a record
expiring 10 days after the clock reading is measured at about 40 days
and lands in "active", not "expiringSoon"; under "All Times" (where
`now` is not mutated) the same record lands in "expiringSoon". The
bucketing therefore depends on the time filter, against the claim. -/
theorem monthly_filter_skews_chart_bucketing :
    chartTotal "Monthly" clockOct11 [activePlus10] "active" = 1 ∧
    chartTotal "Monthly" clockOct11 [activePlus10] "expiringSoon" = 0 ∧
    chartTotal "All Times" clockOct11 [activePlus10] "expiringSoon" = 1 := by
  decide

/-- A record with no `createdAt` but a well-formed country, matching the
college filter. -/
def noCreatedAt : Partnership :=
  ⟨some "Active", none, none, some "Central", some "China"⟩

/-- C4 counterexample: a record with no `createdAt` that matches the
college filter normalises to country "China", yet contributes nothing to
the heatmap counts — `processHeatmapData` filters on `p.createdAt` being
present just like the time-windowed views. -/
theorem heatmap_missing_createdAt_not_counted :
    normalizeCountryName noCreatedAt.country = "China" ∧
    heatmapCountryCount "All Times" "All Colleges" clockOct11 [noCreatedAt]
      "China" = 0 := by
  decide

/-- C4 amended: a record with no `createdAt` is excluded from the
country heatmap counts exactly as it is from the time-windowed views,
whatever the filters: dropping it changes no per-country count. -/
theorem heatmap_drops_missing_createdAt (timeFilter collegeFilter : String)
    (now : JsDate) (p : Partnership) (ps : List Partnership) (country : String)
    (h : p.createdAt = none) :
    heatmapCountryCount timeFilter collegeFilter now (p :: ps) country =
      heatmapCountryCount timeFilter collegeFilter now ps country := by
  simp [heatmapCountryCount, heatmapFiltered, h]

/-- Witness for the C4 amended theorem at a concrete input. -/
theorem heatmap_drops_missing_createdAt_witness :
    heatmapCountryCount "All Times" "All Colleges" clockOct11 [noCreatedAt]
      "China" =
      heatmapCountryCount "All Times" "All Colleges" clockOct11 [] "China" :=
  heatmap_drops_missing_createdAt "All Times" "All Colleges" clockOct11
    noCreatedAt [] "China" rfl

/-- The `changes` object holding only a `region` key. -/
def regionOnlyChanges (v : String) : FormChanges :=
  { emptyFormChanges with region := some v }

/-- C5: when the form state differs from the originally loaded record in
the top-level `region` field alone, `getChangedFields` produces the
object whose only key is `region` with the new value, and exactly that
object is the payload of the `updatePartnership` PUT issued by
`handleSubmit`. -/
theorem region_only_diff_payload (o : FormData) (v : String) (netOk : Bool)
    (h : v ≠ o.region) :
    getChangedFields { o with region := v } (some o) =
      .ok (regionOnlyChanges v) ∧
    EditEffect.putPartnership (regionOnlyChanges v) ∈
      (handleSubmit ⟨{ o with region := v }, some o, false, false, none⟩
        netOk).2 := by
  have hb : (v == o.region) = false := by
    simp [h]
  have hd : getChangedFields { o with region := v } (some o) =
      .ok (regionOnlyChanges v) := by
    simp [getChangedFields, regionOnlyChanges, emptyFormChanges, diffStr,
      diffInst, diffContact, hb]
  refine ⟨hd, ?_⟩
  have hne : (regionOnlyChanges v).isEmpty = false := by
    simp [FormChanges.isEmpty, regionOnlyChanges, emptyFormChanges]
  simp only [handleSubmit]
  rw [show getChangedFields { o with region := v } (some o) =
      .ok (regionOnlyChanges v) from hd]
  cases netOk <;> simp [hne]

/-- Witness for C5 at a concrete record and value. -/
theorem region_only_diff_payload_witness :
    getChangedFields { emptyFormData with region := "Europe" }
      (some emptyFormData) = .ok (regionOnlyChanges "Europe") ∧
    EditEffect.putPartnership (regionOnlyChanges "Europe") ∈
      (handleSubmit ⟨{ emptyFormData with region := "Europe" },
        some emptyFormData, false, false, none⟩ true).2 :=
  region_only_diff_payload emptyFormData "Europe" true (by decide)

/-- A state carrying a stale error from an earlier failed submission. -/
def staleErrorState : EditPageState :=
  ⟨emptyFormData, some emptyFormData, false, false, some "previous failure"⟩

/-- C6 counterexample: submitting with no changes from a state whose
`error` is non-null does NOT leave all non-`submitting` state unchanged:
`handleSubmit` clears `error` to null before the short-circuit. -/
theorem no_change_submit_clears_stale_error :
    staleErrorState.error = some "previous failure" ∧
    (handleSubmit staleErrorState true).1.error = none := by
  decide

/-- C6 amended: a submission whose diff is empty is a no-op, not an
error: no PUT is issued, the only effect is the info notification, and
the resulting state keeps `formData`, `originalData` and `loading`
unchanged, with `submitting` false and `error` cleared to null (the
clearing happens unconditionally at the start of every submission). -/
theorem no_change_submit_noop (st : EditPageState) (netOk : Bool)
    (c : FormChanges)
    (hc : getChangedFields st.formData st.originalData = .ok c)
    (he : c.isEmpty = true) :
    handleSubmit st netOk =
      ({ st with submitting := false, error := none },
       [EditEffect.toastInfo "No changes to save"]) := by
  simp [handleSubmit, hc, he]

/-- Witness for the C6 amended theorem at a concrete state. -/
theorem no_change_submit_noop_witness :
    handleSubmit ⟨emptyFormData, some emptyFormData, false, false, none⟩ true =
      (⟨emptyFormData, some emptyFormData, false, false, none⟩,
       [EditEffect.toastInfo "No changes to save"]) :=
  no_change_submit_noop ⟨emptyFormData, some emptyFormData, false, false, none⟩
    true emptyFormChanges (by rfl) (by decide)

/-- C7: however the dashboard fetch settles, `loading` ends false; and a
rejected fetch leaves the empty record list and surfaces exactly one
error toast. -/
theorem fetch_settles_ready :
    (∀ r : FetchResult, (fetchPartnerships r).1.loading = false) ∧
    (∀ m, (fetchPartnerships (.err m)).1.partnerships = [] ∧
      (fetchPartnerships (.err m)).2 =
        [DashEffect.toastError (m.getD "Failed to fetch partnerships")]) := by
  refine ⟨fun r => ?_, fun m => ⟨rfl, rfl⟩⟩
  cases r <;> rfl

/-- A record in the current month whose college is not one of the eight
enumerated colleges. -/
def unlistedCollegeRec : Partnership :=
  ⟨some "Pending", none, some ⟨2026, 9, 3, 0⟩, some "College of Nursing", none⟩

/-- C9: with the "All Colleges" filter, a record inside the trailing
12-month window whose `interestedCollegeOrDepartment` is not in the
enumerated list reaches `lineDataByCollege[college]` = undefined and the
increment throws: the error branch of `processLineData` is reachable. -/
theorem processLineData_unlisted_college_throws :
    processLineData "All Colleges" clockOct11 [unlistedCollegeRec] =
      .error () := by
  rfl

/-- C10: `getChangedFields` throws for a null `originalData` (the state
a failed initial load leaves behind, with the form still rendered), and
never throws once the original snapshot is present. -/
theorem getChangedFields_null_original :
    (∀ fd : FormData, getChangedFields fd none = .error ()) ∧
    (fetchPartnership initialEditState (.error ())).1.originalData = none ∧
    (fetchPartnership initialEditState (.error ())).1.loading = false ∧
    (∀ fd o : FormData, ∃ c, getChangedFields fd (some o) = .ok c) := by
  exact ⟨fun fd => rfl, rfl, rfl, fun fd o => ⟨_, rfl⟩⟩

theorem getSeries_setSeries_self (sc : SeriesCounts) (status : String)
    (l : List Nat)
    (h : status ∈ ["active", "expired", "expiringSoon", "prospect"]) :
    getSeries (setSeries sc status l) status = some l := by
  simp only [List.mem_cons, List.not_mem_nil, or_false] at h
  rcases h with rfl | rfl | rfl | rfl <;> simp [getSeries, setSeries]

theorem getSeries_zeroSeries (status : String)
    (h : status ∈ ["active", "expired", "expiringSoon", "prospect"]) :
    getSeries zeroSeries status = some (List.replicate 12 0) := by
  simp only [List.mem_cons, List.not_mem_nil, or_false] at h
  rcases h with rfl | rfl | rfl | rfl <;> simp [getSeries, zeroSeries]

theorem initLineTable_all : initLineTable "All Colleges" = some zeroSeries := by
  decide

theorem lineStep_current_month (cf : String) (now : JsDate) (p : Partnership)
    (c : JsDate) (col D : String)
    (hc : p.createdAt = some c)
    (hcol : p.college = some col)
    (hmem : col ∈ departmentColleges)
    (hD : deriveStatusLine p.status p.expirationDate now.toMs = D)
    (hDmem : D ∈ ["active", "expired", "expiringSoon", "prospect"])
    (hy : c.year = now.year) (hm : c.month = now.month)
    (hcf : cf = "All Colleges" ∨ col = cf) :
    lineCountE (processLineData cf now [p]) col D 11 = 1 ∧
    lineCountE (processLineData cf now [p]) "All Colleges" D 11 = 1 := by
  have hmem8 : col ∈ ["Central", "College of Business and Economics",
      "College of Social Science, Arts and Humanities",
      "College of Veterinary Medicine and Agriculture", "School of Law",
      "College of Technology and Built Environment",
      "College of Education and Language Studies",
      "College of Health Science"] := by
    simpa [departmentColleges, colleges] using hmem
  have hinit : initLineTable col = some zeroSeries := by
    simp only [List.mem_cons, List.not_mem_nil, or_false] at hmem8
    rcases hmem8 with rfl | rfl | rfl | rfl | rfl | rfl | rfl | rfl <;> decide
  have hne : (col == "All Colleges") = false := by
    simp only [List.mem_cons, List.not_mem_nil, or_false] at hmem8
    rcases hmem8 with rfl | rfl | rfl | rfl | rfl | rfl | rfl | rfl <;> decide
  have hne2 : (("All Colleges" : String) == col) = false := by
    simp only [List.mem_cons, List.not_mem_nil, or_false] at hmem8
    rcases hmem8 with rfl | rfl | rfl | rfl | rfl | rfl | rfl | rfl <;> decide
  have htr : truthyStr (some col) = true := by
    simp only [List.mem_cons, List.not_mem_nil, or_false] at hmem8
    rcases hmem8 with rfl | rfl | rfl | rfl | rfl | rfl | rfl | rfl <;> decide
  have hmi : monthIndexOf now c = 11 := by
    unfold monthIndexOf; omega
  have hguard : (0 : Int) ≤ 11 ∧ (11 : Int) < 12 := by decide
  have hfilter : (cf == "All Colleges" || some col == some cf) = true := by
    rcases hcf with rfl | rfl
    · simp
    · simp
  simp only [processLineData, List.foldl, lineStep, hc, hcol, htr,
    Bool.not_true, Bool.false_eq_true, if_false, hD, hmi]
  rw [if_pos hguard, hfilter]
  simp only [if_true, Option.getD_some]
  simp only [bumpTable, hinit, getSeries_zeroSeries D hDmem]
  simp only [Except.bind, hne2, Bool.false_eq_true, if_false, initLineTable_all,
    getSeries_zeroSeries D hDmem, lineCountE, hne, beq_self_eq_true, if_true,
    getSeries_setSeries_self _ D _ hDmem, Option.getD_some]
  constructor <;> decide

theorem lineStep_twelve_months_ago (cf : String) (now : JsDate)
    (p : Partnership) (c : JsDate)
    (hc : p.createdAt = some c)
    (h12 : c.year * 12 + c.month = now.year * 12 + now.month - 12) :
    monthIndexOf now c = -1 ∧
    processLineData cf now [p] = .ok initLineTable := by
  have hmi : monthIndexOf now c = -1 := by
    unfold monthIndexOf; omega
  refine ⟨hmi, ?_⟩
  have hguard : ¬((0 : Int) ≤ -1 ∧ (-1 : Int) < 12) := by decide
  simp only [processLineData, List.foldl, lineStep, hc, hmi]
  cases htc : truthyStr p.college with
  | false => simp
  | true => simp [hguard]

/-- C3: in `processLineData`, a record with `createdAt` and a listed
college, matching the active college filter (or the filter being "All
Colleges"), whose creation falls in the current calendar month,
increments slot 11 of the 12-slot sequence of its derived status both in
its own college series and in the "All Colleges" series; and a record
created exactly 12 calendar months before the current month has month
index -1 (< 0) and is excluded, leaving the table untouched. -/
theorem line_month_window :
    (∀ (cf : String) (now : JsDate) (p : Partnership) (c : JsDate)
       (col D : String),
       p.createdAt = some c →
       p.college = some col →
       col ∈ departmentColleges →
       deriveStatusLine p.status p.expirationDate now.toMs = D →
       D ∈ ["active", "expired", "expiringSoon", "prospect"] →
       c.year = now.year → c.month = now.month →
       (cf = "All Colleges" ∨ col = cf) →
       lineCountE (processLineData cf now [p]) col D 11 = 1 ∧
       lineCountE (processLineData cf now [p]) "All Colleges" D 11 = 1) ∧
    (∀ (cf : String) (now : JsDate) (p : Partnership) (c : JsDate),
       p.createdAt = some c →
       c.year * 12 + c.month = now.year * 12 + now.month - 12 →
       monthIndexOf now c = -1 ∧
       processLineData cf now [p] = .ok initLineTable) :=
  ⟨fun cf now p c col D hc hcol hmem hD hDmem hy hm hcf =>
      lineStep_current_month cf now p c col D hc hcol hmem hD hDmem hy hm hcf,
   fun cf now p c hc h12 => lineStep_twelve_months_ago cf now p c hc h12⟩

def currentMonthRec : Partnership :=
  ⟨some "Pending", none, some ⟨2026, 9, 3, 0⟩, some "Central", none⟩

def twelveMonthsAgoRec : Partnership :=
  ⟨some "Pending", none, some ⟨2025, 9, 1, 0⟩, some "Central", none⟩

/-- Witness for C3 at concrete inputs: a record created 2026-10-03 seen
at clock 2026-10-11 lands in slot 11 of both series; one created
2025-10-01 gets month index -1 and leaves the table initial. -/
theorem line_month_window_witness :
    (lineCountE (processLineData "All Colleges" clockOct11 [currentMonthRec])
        "Central" "prospect" 11 = 1 ∧
     lineCountE (processLineData "All Colleges" clockOct11 [currentMonthRec])
        "All Colleges" "prospect" 11 = 1) ∧
    (monthIndexOf clockOct11 ⟨2025, 9, 1, 0⟩ = -1 ∧
     processLineData "All Colleges" clockOct11 [twelveMonthsAgoRec] =
       .ok initLineTable) :=
  ⟨line_month_window.1 "All Colleges" clockOct11 currentMonthRec ⟨2026, 9, 3, 0⟩
      "Central" "prospect" rfl rfl (by decide) (by decide) (by decide) rfl rfl
      (Or.inl rfl),
   line_month_window.2 "All Colleges" clockOct11 twelveMonthsAgoRec
      ⟨2025, 9, 1, 0⟩ rfl (by decide)⟩

theorem toNat_charOfNat (n : Nat) (h : n.isValidChar) :
    (Char.ofNat n).toNat = n := by
  simp [Char.ofNat, h, Char.ofNatAux, Char.toNat, UInt32.toNat,
    BitVec.toNat_ofNatLt]

theorem jsCharToLower_toUpper (c : Char) :
    jsCharToLower (jsCharToUpper c) = jsCharToLower c := by
  unfold jsCharToUpper jsCharToLower
  by_cases h : 97 ≤ c.toNat ∧ c.toNat ≤ 122
  · rw [if_pos h]
    have hv : (c.toNat - 32).isValidChar := Or.inl (by omega)
    have ht : (Char.ofNat (c.toNat - 32)).toNat = c.toNat - 32 :=
      toNat_charOfNat _ hv
    rw [ht, if_pos (by omega : 65 ≤ c.toNat - 32 ∧ c.toNat - 32 ≤ 90),
      if_neg (by omega : ¬(65 ≤ c.toNat ∧ c.toNat ≤ 90))]
    have h32 : c.toNat - 32 + 32 = c.toNat := by omega
    rw [h32, Char.ofNat_toNat]
  · rw [if_neg h]

theorem jsCharToUpper_idem (c : Char) :
    jsCharToUpper (jsCharToUpper c) = jsCharToUpper c := by
  unfold jsCharToUpper
  by_cases h : 97 ≤ c.toNat ∧ c.toNat ≤ 122
  · rw [if_pos h]
    have hv : (c.toNat - 32).isValidChar := Or.inl (by omega)
    have ht : (Char.ofNat (c.toNat - 32)).toNat = c.toNat - 32 :=
      toNat_charOfNat _ hv
    rw [if_neg (by omega : ¬(97 ≤ (Char.ofNat (c.toNat - 32)).toNat ∧
      (Char.ofNat (c.toNat - 32)).toNat ≤ 122))]
  · rw [if_neg h, if_neg h]

theorem charBEq_false_of_toNat_ne {c d : Char} (h : c.toNat ≠ d.toNat) :
    (c == d) = false := by
  rw [beq_eq_false_iff_ne]
  intro he
  exact h (he ▸ rfl)

theorem jsWs_false_of_range {c : Char} (h1 : 65 ≤ c.toNat)
    (h2 : c.toNat ≤ 122) : jsWs c = false := by
  have hsp : (' ' : Char).toNat = 32 := rfl
  have htb : ('\t' : Char).toNat = 9 := rfl
  have hnl : ('\n' : Char).toNat = 10 := rfl
  have hcr : ('\r' : Char).toNat = 13 := rfl
  unfold jsWs
  rw [charBEq_false_of_toNat_ne (by omega), charBEq_false_of_toNat_ne (by omega),
    charBEq_false_of_toNat_ne (by omega), charBEq_false_of_toNat_ne (by omega)]
  rfl

theorem jsWs_toUpper (c : Char) : jsWs (jsCharToUpper c) = jsWs c := by
  by_cases h : 97 ≤ c.toNat ∧ c.toNat ≤ 122
  · have hu : (jsCharToUpper c).toNat = c.toNat - 32 := by
      unfold jsCharToUpper
      rw [if_pos h]
      exact toNat_charOfNat _ (Or.inl (by omega))
    rw [jsWs_false_of_range (by omega) (by omega),
      jsWs_false_of_range (by omega) (by omega)]
  · unfold jsCharToUpper
    rw [if_neg h]

theorem jsWs_toUpper_self {c : Char} (h : jsWs c = true) :
    jsCharToUpper c = c := by
  unfold jsWs at h
  simp only [Bool.or_eq_true, beq_iff_eq] at h
  rcases h with ((rfl | rfl) | rfl) | rfl <;> rfl

theorem dropWhile_append_singleton {x : Char} (hx : jsWs x = false)
    (A : List Char) :
    (A ++ [x]).dropWhile jsWs = A.dropWhile jsWs ++ [x] := by
  induction A with
  | nil => simp [List.dropWhile, hx]
  | cons a A ih =>
    by_cases ha : jsWs a = true
    · simp [List.dropWhile_cons, ha, ih]
    · simp [List.dropWhile_cons, ha]

theorem jsTrimList_cons {x : Char} (hx : jsWs x = false) (cs : List Char) :
    jsTrimList (x :: cs) = x :: (cs.reverse.dropWhile jsWs).reverse := by
  unfold jsTrimList
  rw [List.dropWhile_cons_of_neg (by simp [hx]), List.reverse_cons,
    dropWhile_append_singleton hx, List.reverse_append]
  rfl

theorem trimLower_capitalize (s : String) :
    jsToLower (jsTrim (jsCapitalize s)) = jsToLower (jsTrim s) := by
  cases s with
  | mk l =>
    cases l with
    | nil => rfl
    | cons c cs =>
      show jsToLower (jsTrim (String.mk (jsCharToUpper c :: cs))) =
        jsToLower (jsTrim (String.mk (c :: cs)))
      by_cases hw : jsWs c = true
      · rw [jsWs_toUpper_self hw]
      · have hwc : jsWs c = false := by simpa using hw
        have hwu : jsWs (jsCharToUpper c) = false := by
          rw [jsWs_toUpper]; exact hwc
        show String.mk ((jsTrimList (jsCharToUpper c :: cs)).map jsCharToLower) =
          String.mk ((jsTrimList (c :: cs)).map jsCharToLower)
        rw [jsTrimList_cons hwu, jsTrimList_cons hwc]
        simp only [List.map_cons, jsCharToLower_toUpper]

theorem jsCapitalize_idem (s : String) :
    jsCapitalize (jsCapitalize s) = jsCapitalize s := by
  cases s with
  | mk l =>
    cases l with
    | nil => rfl
    | cons c cs =>
      show jsCapitalize (String.mk (jsCharToUpper c :: cs)) = _
      show String.mk (jsCharToUpper (jsCharToUpper c) :: cs) = _
      rw [jsCharToUpper_idem]
      rfl

theorem countryMap_val {n m : String} (h : countryMap n = some m) :
    m ∈ ["United States", "United Kingdom", "South Korea",
         "Russian Federation", "China", "Taiwan", "Ethiopia"] := by
  unfold countryMap at h
  by_cases h0 : (n == "united states") = true
  · rw [if_pos h0] at h; injection h with he; subst he; decide
  · rw [if_neg h0] at h
    by_cases h1 : (n == "usa") = true
    · rw [if_pos h1] at h; injection h with he; subst he; decide
    · rw [if_neg h1] at h
      by_cases h2 : (n == "united states of america") = true
      · rw [if_pos h2] at h; injection h with he; subst he; decide
      · rw [if_neg h2] at h
        by_cases h3 : (n == "united kingdom") = true
        · rw [if_pos h3] at h; injection h with he; subst he; decide
        · rw [if_neg h3] at h
          by_cases h4 : (n == "uk") = true
          · rw [if_pos h4] at h; injection h with he; subst he; decide
          · rw [if_neg h4] at h
            by_cases h5 : (n == "great britain") = true
            · rw [if_pos h5] at h; injection h with he; subst he; decide
            · rw [if_neg h5] at h
              by_cases h6 : (n == "south korea") = true
              · rw [if_pos h6] at h; injection h with he; subst he; decide
              · rw [if_neg h6] at h
                by_cases h7 : (n == "korea, republic of") = true
                · rw [if_pos h7] at h; injection h with he; subst he; decide
                · rw [if_neg h7] at h
                  by_cases h8 : (n == "russia") = true
                  · rw [if_pos h8] at h; injection h with he; subst he; decide
                  · rw [if_neg h8] at h
                    by_cases h9 : (n == "china") = true
                    · rw [if_pos h9] at h; injection h with he; subst he; decide
                    · rw [if_neg h9] at h
                      by_cases h10 : (n == "taiwan") = true
                      · rw [if_pos h10] at h; injection h with he; subst he; decide
                      · rw [if_neg h10] at h
                        by_cases h11 : (n == "ethiopia") = true
                        · rw [if_pos h11] at h; injection h with he; subst he; decide
                        · rw [if_neg h11] at h
                          exact Option.noConfusion h

/-- C8: country-name normalisation is idempotent — renormalising any
normaliser output returns it unchanged — and missing or empty input maps
to "Unknown", itself a fixed point. -/
theorem normalizeCountryName_idem :
    (∀ o : Option String,
      normalizeCountryName (some (normalizeCountryName o)) =
        normalizeCountryName o) ∧
    normalizeCountryName none = "Unknown" ∧
    normalizeCountryName (some "") = "Unknown" ∧
    normalizeCountryName (some "Unknown") = "Unknown" := by
  refine ⟨?_, rfl, by decide, by decide⟩
  intro o
  match o with
  | none => decide
  | some s =>
    by_cases hf : jsFalsyStr s = true
    · have h1 : normalizeCountryName (some s) = "Unknown" := by
        simp [normalizeCountryName, hf]
      rw [h1]; decide
    · have hfneg : jsFalsyStr s = false := by simpa using hf
      cases hm : countryMap (jsToLower (jsTrim s)) with
      | some mapped =>
        have h1 : normalizeCountryName (some s) = jsCapitalize mapped := by
          simp [normalizeCountryName, hfneg, hm]
        rw [h1]
        have hmem := countryMap_val hm
        simp only [List.mem_cons, List.not_mem_nil, or_false] at hmem
        rcases hmem with rfl | rfl | rfl | rfl | rfl | rfl | rfl <;> decide
      | none =>
        have h1 : normalizeCountryName (some s) = jsCapitalize s := by
          simp [normalizeCountryName, hfneg, hm]
        rw [h1]
        cases s with
        | mk l =>
          cases l with
          | nil => simp [jsFalsyStr] at hfneg
          | cons c cs =>
            have hcap : jsCapitalize (String.mk (c :: cs)) =
                String.mk (jsCharToUpper c :: cs) := rfl
            have hfc : jsFalsyStr (String.mk (jsCharToUpper c :: cs)) = false := rfl
            have htl := trimLower_capitalize (String.mk (c :: cs))
            rw [hcap] at htl ⊢
            simp [normalizeCountryName, hfc, htl, hm]
            have hci := jsCapitalize_idem (String.mk (c :: cs))
            rw [hcap] at hci
            rw [hci]


end Frontend
